import Mathlib

set_option maxRecDepth 100000

/-!
Verification of the anomaly-detection engine of `services/ai-mock/main.py`.

The engine lowercases the input text once, then evaluates a fixed table of
detection rules; each rule fires when at least one of its base patterns and
at least one pattern of its single conflict-style group match the lowered
text (unanchored regex search), and then contributes its fixed anomaly
template to the result list.  We embed the regular expressions used by the
table (literals, character classes, `.`, `.*`, `\s`, alternation, option)
as a small regex type with a Brzozowski-derivative matcher, embed the rule
table verbatim, and model the surrounding response assembly.
-/

/-- Regular expressions as used in the detection table: character literals,
character classes, `.` (any character except newline), alternation,
concatenation and Kleene star. -/
inductive Regex where
  | emp : Regex
  | eps : Regex
  | chr : Char → Regex
  | cls : List Char → Regex
  | dot : Regex
  | alt : Regex → Regex → Regex
  | cat : Regex → Regex → Regex
  | star : Regex → Regex
deriving DecidableEq

/-- Does the regex accept the empty string? -/
def nullable : Regex → Bool
  | .emp => false
  | .eps => true
  | .chr _ => false
  | .cls _ => false
  | .dot => false
  | .alt r s => nullable r || nullable s
  | .cat r s => nullable r && nullable s
  | .star _ => true

/-- Smart concatenation constructor keeping derivatives small. -/
def cat' : Regex → Regex → Regex
  | .emp, _ => .emp
  | _, .emp => .emp
  | .eps, r => r
  | r, .eps => r
  | r, s => .cat r s

/-- Smart alternation constructor keeping derivatives small. -/
def alt' : Regex → Regex → Regex
  | .emp, r => r
  | r, .emp => r
  | r, s => .alt r s

/-- Brzozowski derivative of a regex with respect to one character. -/
def rderiv : Regex → Char → Regex
  | .emp, _ => .emp
  | .eps, _ => .emp
  | .chr c0, c => if c = c0 then .eps else .emp
  | .cls cs, c => if cs.contains c then .eps else .emp
  | .dot, c => if c = '\n' then .emp else .eps
  | .alt r s, c => alt' (rderiv r c) (rderiv s c)
  | .cat r s, c => if nullable r then alt' (cat' (rderiv r c) s) (rderiv s c) else cat' (rderiv r c) s
  | .star r, c => cat' (rderiv r c) (.star r)

/-- Does the regex match some prefix of the character list?  The `.emp`
case is an early exit once the derivative has collapsed to the empty
language; it agrees with the general clauses because `.emp` is never
nullable and is its own derivative. -/
def mpre : Regex → List Char → Bool
  | .emp, _ => false
  | r, [] => nullable r
  | r, c :: cs => nullable r || mpre (rderiv r c) cs

/-- Unanchored search, the semantics of Python `re.search` returning a
truthy match object: the regex matches at some position of the text. -/
def research : Regex → List Char → Bool
  | r, [] => nullable r
  | r, c :: cs => mpre r (c :: cs) || research r cs

/-- Literal string pattern (a regex with no metacharacters, or with the
metacharacter escaped, like `H36\.0`). -/
def litRe (s : String) : Regex :=
  s.data.foldr (fun c r => Regex.cat (Regex.chr c) r) Regex.eps

/-- Sequence of regex fragments, for patterns mixing fragments such as
`vid.*ostecen`. -/
def seqRe (rs : List Regex) : Regex := rs.foldr Regex.cat Regex.eps

/-- Alternation of a group, for patterns such as `pis(ati|uje|e|i)`. -/
def altRe (rs : List Regex) : Regex := rs.foldr Regex.alt Regex.emp

/-- The `?` postfix operator. -/
def optRe (r : Regex) : Regex := Regex.alt r Regex.eps

/-- The `+` postfix operator. -/
def plusRe (r : Regex) : Regex := Regex.cat r (Regex.star r)

/-- The `.*` fragment. -/
def dotStar : Regex := Regex.star Regex.dot

/-- The `\s` character class (Python whitespace). -/
def spaceRe : Regex := Regex.cls [' ', '\t', '\n', '\x0b', '\x0c', '\r']

/-- The decimal digits, for the `[0-9]` character class. -/
def DIGITS : List Char := ['0', '1', '2', '3', '4', '5', '6', '7', '8', '9']

/-- Looks a character up in a case-folding table, returning it unchanged
when it carries no case mapping. -/
def foldPairs : List (Char × Char) → Char → Char
  | [], c => c
  | (k, v) :: ps, c => if c = k then v else foldPairs ps c

/-- Case mappings of Python `str.lower` for the alphabet the service deals
with (ASCII plus the Serbian Latin diacritics appearing in the source). -/
def lowerPairs : List (Char × Char) :=
  [('A', 'a'), ('B', 'b'), ('C', 'c'), ('D', 'd'), ('E', 'e'), ('F', 'f'),
   ('G', 'g'), ('H', 'h'), ('I', 'i'), ('J', 'j'), ('K', 'k'), ('L', 'l'),
   ('M', 'm'), ('N', 'n'), ('O', 'o'), ('P', 'p'), ('Q', 'q'), ('R', 'r'),
   ('S', 's'), ('T', 't'), ('U', 'u'), ('V', 'v'), ('W', 'w'), ('X', 'x'),
   ('Y', 'y'), ('Z', 'z'), ('Č', 'č'), ('Ć', 'ć'), ('Š', 'š'), ('Đ', 'đ'),
   ('Ž', 'ž')]

/-- Case mappings of Python `str.upper` for the same alphabet, together
with the character-wise Unicode mappings that fold INTO that alphabet
(long s `ſ` uppercases to `S`, dotless i `ı` uppercases to `I`): these
make upper-then-lower differ from plain lowering on such characters, just
as in Python.  (Python also has non-character-wise mappings such as
`ß` to `SS`, which a per-character map cannot represent; they are not
needed below.) -/
def upperPairs : List (Char × Char) :=
  [('a', 'A'), ('b', 'B'), ('c', 'C'), ('d', 'D'), ('e', 'E'), ('f', 'F'),
   ('g', 'G'), ('h', 'H'), ('i', 'I'), ('j', 'J'), ('k', 'K'), ('l', 'L'),
   ('m', 'M'), ('n', 'N'), ('o', 'O'), ('p', 'P'), ('q', 'Q'), ('r', 'R'),
   ('s', 'S'), ('t', 'T'), ('u', 'U'), ('v', 'V'), ('w', 'W'), ('x', 'X'),
   ('y', 'Y'), ('z', 'Z'), ('č', 'Č'), ('ć', 'Ć'), ('š', 'Š'), ('đ', 'Đ'),
   ('ž', 'Ž'), ('ſ', 'S'), ('ı', 'I')]

/-- Python `str.lower` on one character. -/
def pyLowerChar (c : Char) : Char := foldPairs lowerPairs c

/-- Python `str.upper` on one character. -/
def pyUpperChar (c : Char) : Char := foldPairs upperPairs c

/-- The lowered text the engine works on: `text.lower()` of line 225. -/
def pyLowerStr (s : String) : List Char := s.data.map pyLowerChar

/-- The all-uppercase version of a text, `text.upper()`. -/
def pyUpperStr (s : String) : String := String.mk (s.data.map pyUpperChar)

theorem foldPairs_ne_target (ps : List (Char × Char)) (c t : Char)
    (hvals : ∀ p ∈ ps, p.2 ≠ t) (hc : c ≠ t) : foldPairs ps c ≠ t := by
  induction ps with
  | nil => exact hc
  | cons p ps ih =>
      obtain ⟨k, v⟩ := p
      simp only [foldPairs]
      by_cases hck : c = k
      · rw [if_pos hck]
        exact hvals ⟨k, v⟩ (List.mem_cons_self _ _)
      · rw [if_neg hck]
        exact ih fun q hq => hvals q (List.mem_cons_of_mem _ hq)

theorem pyLowerChar_ne_H (c : Char) : pyLowerChar c ≠ 'H' := by
  by_cases hc : c = 'H'
  · subst hc; decide
  · exact foldPairs_ne_target lowerPairs c 'H' (by decide) hc

/-- The `SeverityLevel` enumeration of the service. -/
inductive SeverityLevel where
  | info
  | warning
  | critical
deriving DecidableEq

/-- The `AnomalyType` enumeration of the service. -/
inductive AnomalyType where
  | impossible_instruction
  | logical_inconsistency
  | data_conflict
  | protocol_violation
deriving DecidableEq

/-- The `Anomaly` finding payload. -/
structure Anomaly where
  type : AnomalyType
  severity : SeverityLevel
  title : String
  description : String
  evidence : List String
  recommendation : String
  protocol_reference : Option String
deriving DecidableEq

/-- One entry of `DETECTION_PATTERNS`: the Python dict holds `patterns`,
the fixed `anomaly` payload, and exactly one of the four conflict-style
keys; the optional fields model the presence or absence of each key. -/
structure PatternSet where
  patterns : List Regex
  instruction_patterns : Option (List Regex)
  conclusion_patterns : Option (List Regex)
  conflict_patterns : Option (List Regex)
  value_patterns : Option (List Regex)
  anomaly : Anomaly
deriving DecidableEq

/-- Anomaly template of rule 1 (lines 92-105). -/
def ANOMALY_IMPOSSIBLE : Anomaly :=
  { type := AnomalyType.impossible_instruction
  , severity := SeverityLevel.critical
  , title := "Nemoguće uputstvo - zahteva vid kod slepog pacijenta"
  , description := "Dokumentacija sadrži uputstvo koje zahteva vid (čitanje/pisanje vrednosti), ali pacijent ima dijagnostifikovano teško oštećenje vida ili slepoću (retinopatija)."
  , evidence :=
      [ "Dijagnoza: H36.0 (Retinopathia diabetica) ili ekvivalent"
      , "Uputstvo zahteva vizuelnu aktivnost (čitanje, pisanje, beleženje)" ]
  , recommendation := "Obezbediti asistenciju treće osobe ili govorni glukometar sa audio povratnom informacijom. Alternativno: CGM (kontinuirani monitoring glukoze) sa alarmima."
  , protocol_reference := some "Vodič za dijabetes Batuta 2023, Sekcija 4.2 - Prilagođavanje terapije" }

/-- Anomaly template of rule 2 (lines 121-134). -/
def ANOMALY_HYPO : Anomaly :=
  { type := AnomalyType.logical_inconsistency
  , severity := SeverityLevel.critical
  , title := "Logička nekonzistentnost - opasna hipoglikemija opisana kao \x27dobra praksa\x27"
  , description := "Dokumentacija navodi kritično nisku glikemiju (< 2.2 mmol/L je ozbiljna hipoglikemija), ali zaključak tvrdi da je postupanje bilo u skladu sa dobrom praksom."
  , evidence :=
      [ "Glikemija ispod kritičnog praga (< 2.2 mmol/L)"
      , "Zaključak pozitivno ocenjuje postupanje" ]
  , recommendation := "Revidirati zaključak. Prema Vodiču Batuta, glikemija < 2.2 mmol/L zahteva hitnu intervenciju. Ako je pacijent na dugom insulinu, neophodna je hospitalizacija."
  , protocol_reference := some "Vodič Batuta za prehospitalna urgentna stanja, Hipoglikemija" }

/-- Anomaly template of rule 3 (lines 149-162). -/
def ANOMALY_NEGA : Anomaly :=
  { type := AnomalyType.logical_inconsistency
  , severity := SeverityLevel.critical
  , title := "Kontradikcija - \x27nega nije obezbeđena\x27 + \x27dobra praksa\x27"
  , description := "Dokumentacija eksplicitno navodi da nega nije obezbeđena, ali zaključak ocenjuje postupanje kao ispravno."
  , evidence :=
      [ "Izjava: \x27nega nije obezbeđena\x27 (ili ekvivalent)"
      , "Zaključak: pozitivna ocena postupanja" ]
  , recommendation := "Uskladiti zaključak sa činjeničnim stanjem. Ako nega zaista nije bila obezbeđena, to ne može biti \x27dobra praksa\x27 prema bilo kom standardu."
  , protocol_reference := none }

/-- Anomaly template of rule 4 (lines 178-191). -/
def ANOMALY_SOCIAL : Anomaly :=
  { type := AnomalyType.data_conflict
  , severity := SeverityLevel.warning
  , title := "Konflikt podataka - navedena nega vs. socijalni status"
  , description := "Medicinska dokumentacija navodi da će se član porodice/srodnik brinuti o pacijentu, ali socijalni podaci ukazuju da pacijent živi sam ili nema dostupne srodnike."
  , evidence :=
      [ "Otpusna lista/plan: srodnik će se brinuti"
      , "Socijalni karton: živi sam/nema srodnika u mestu" ]
  , recommendation := "Verifikovati stvarno stanje pre otpusta. Ako pacijent zaista živi sam, organizovati kućnu negu ili razmotriti produženi boravak."
  , protocol_reference := none }

/-- Anomaly template of rule 5 (lines 202-214). -/
def ANOMALY_DISCHARGE : Anomaly :=
  { type := AnomalyType.protocol_violation
  , severity := SeverityLevel.critical
  , title := "Kršenje protokola - otpust sa kritičnom glikemijom"
  , description := "Pacijent je otpušten sa glikemijom koja je ispod bezbednog praga. Prema protokolu, glikemija mora biti stabilizovana pre otpusta."
  , evidence :=
      [ "Vrednost glikemije pri otpustu ispod 4.0 mmol/L" ]
  , recommendation := "Pacijent sa glikemijom < 4.0 mmol/L ne bi trebalo da bude otpušten dok se vrednosti ne stabilizuju iznad 5.0 mmol/L tokom najmanje 2 sata."
  , protocol_reference := some "ADA Standards of Care 2024, Sekcija 6 - Hospitalizovani pacijenti" }

/-- Rule 1 (lines 75-106): visual instruction for a blind patient. -/
def RULE_IMPOSSIBLE : PatternSet :=
  { patterns :=
      [ litRe "retinopat"
      , litRe "slep"
      , seqRe [litRe "vid", dotStar, litRe "ostecen"]
      , litRe "H36.0"
      , seqRe [litRe "dijabeti", dotStar, litRe "retinopat"] ]
  , instruction_patterns := some
      [ litRe "upis"
      , seqRe [litRe "pis", altRe [litRe "ati", litRe "uje", litRe "e", litRe "i"]]
      , seqRe [Regex.cls ['c', 'č'], litRe "ita"]
      , seqRe [litRe "bele", Regex.cls ['z', 'ž'], litRe "i"]
      , litRe "evidentira"
      , seqRe [litRe "meri", optRe (litRe "ti"), dotStar, litRe "glikemij"]
      , seqRe [litRe "javi", optRe (litRe "ti"), dotStar, litRe "lekar"] ]
  , conclusion_patterns := none
  , conflict_patterns := none
  , value_patterns := none
  , anomaly := ANOMALY_IMPOSSIBLE }

/-- Rule 2 (lines 107-135): critical hypoglycemia called good practice. -/
def RULE_HYPO : PatternSet :=
  { patterns :=
      [ seqRe [litRe "glikemij", dotStar, Regex.cls ['0', '1', '2'], Regex.chr '.', Regex.cls DIGITS]
      , seqRe [litRe "glukoz", dotStar, Regex.cls ['0', '1', '2'], Regex.chr '.', Regex.cls DIGITS]
      , seqRe [Regex.cls ['0', '1', '2'], Regex.chr '.', Regex.cls DIGITS, Regex.star spaceRe, litRe "mmol"]
      , litRe "hipoglikemij" ]
  , instruction_patterns := none
  , conclusion_patterns := some
      [ seqRe [litRe "dobr", dotStar, litRe "praks"]
      , litRe "u skladu"
      , litRe "pravilno"
      , litRe "adekvatn"
      , litRe "bez propust" ]
  , conflict_patterns := none
  , value_patterns := none
  , anomaly := ANOMALY_HYPO }

/-- Rule 3 (lines 136-163): care not provided yet called good practice. -/
def RULE_NEGA : PatternSet :=
  { patterns :=
      [ seqRe [litRe "nega", dotStar, litRe "nije", dotStar, litRe "obezbe", Regex.cls ['d', 'đ']]
      , seqRe [litRe "nije", dotStar, litRe "obezbe", Regex.cls ['d', 'đ'], dotStar, litRe "nega"]
      , seqRe [litRe "bez", dotStar, litRe "nege"]
      , seqRe [litRe "nega", dotStar, litRe "nedostup"] ]
  , instruction_patterns := none
  , conclusion_patterns := some
      [ seqRe [litRe "dobr", dotStar, litRe "praks"]
      , litRe "u skladu"
      , litRe "pravilno"
      , litRe "adekvatn" ]
  , conflict_patterns := none
  , value_patterns := none
  , anomaly := ANOMALY_NEGA }

/-- Rule 4 (lines 164-192): family care claimed vs. patient living alone. -/
def RULE_SOCIAL : PatternSet :=
  { patterns :=
      [ seqRe [litRe "sestra", dotStar, litRe "vodi", dotStar, litRe "ra", Regex.cls ['c', 'č'], litRe "un"]
      , seqRe [Regex.cls ['c', 'č'], litRe "lan", dotStar, litRe "porodic", dotStar, litRe "brin"]
      , seqRe [litRe "srodnik", dotStar, litRe "obezbe", Regex.cls ['d', 'đ']]
      , seqRe [litRe "suprug", dotStar, litRe "poma", Regex.cls ['z', 'ž']] ]
  , instruction_patterns := none
  , conclusion_patterns := none
  , conflict_patterns := some
      [ seqRe [Regex.cls ['z', 'ž'], litRe "ivi", plusRe spaceRe, litRe "sam"]
      , seqRe [litRe "nema", dotStar, litRe "srodnik"]
      , litRe "usamljen"
      , seqRe [litRe "bez", dotStar, litRe "porodic"]
      , seqRe [litRe "samo", dotStar, Regex.cls ['z', 'ž'], litRe "ivi"] ]
  , value_patterns := none
  , anomaly := ANOMALY_SOCIAL }

/-- Rule 5 (lines 193-215): discharge with critical glycemia. -/
def RULE_DISCHARGE : PatternSet :=
  { patterns :=
      [ seqRe [litRe "otpu", Regex.cls ['s', 'š'], litRe "t", dotStar, litRe "sa", dotStar, litRe "gluk"]
      , seqRe [litRe "otpu", Regex.cls ['s', 'š'], litRe "t", dotStar, litRe "sa", dotStar, litRe "glikemij"] ]
  , instruction_patterns := none
  , conclusion_patterns := none
  , conflict_patterns := none
  , value_patterns := some
      [ seqRe [Regex.cls ['0', '1', '2', '3'], Regex.chr '.', Regex.cls DIGITS, Regex.star spaceRe, litRe "mmol"]
      , seqRe [litRe "glu", dotStar, Regex.cls ['0', '1', '2', '3'], Regex.chr '.', Regex.cls DIGITS] ]
  , anomaly := ANOMALY_DISCHARGE }

/-- The detection table `DETECTION_PATTERNS` (lines 74-216), in order. -/
def DETECTION_PATTERNS : List PatternSet :=
  [RULE_IMPOSSIBLE, RULE_HYPO, RULE_NEGA, RULE_SOCIAL, RULE_DISCHARGE]

/-- Line 230: `any(re.search(p, text_lower) for p in pattern_set["patterns"])`. -/
def base_match (ps : PatternSet) (tl : List Char) : Bool :=
  ps.patterns.any fun p => research p tl

/-- Lines 236-240: probe the four conflict-style keys in their fixed
priority order and keep the first group present. -/
def conflict_group (ps : PatternSet) : Option (List Regex) :=
  match ps.instruction_patterns with
  | some g => some g
  | none =>
    match ps.conclusion_patterns with
    | some g => some g
    | none =>
      match ps.conflict_patterns with
      | some g => some g
      | none => ps.value_patterns

/-- Line 242: `conflict_key and any(re.search(p, text_lower) ...)`. -/
def conflict_match (ps : PatternSet) (tl : List Char) : Bool :=
  match conflict_group ps with
  | some g => g.any fun p => research p tl
  | none => false

/-- Loop body of lines 228-252: skip the rule unless the base group
matches, then append the fixed template when the conflict group matches. -/
def evalRule (ps : PatternSet) (tl : List Char) : List Anomaly :=
  if base_match ps tl then
    if conflict_match ps tl then [ps.anomaly] else []
  else []

/-- The anomaly accumulation loop of `detect_anomalies` over the lowered
text (lines 225-252). -/
def detect_core (tl : List Char) : List Anomaly :=
  DETECTION_PATTERNS.foldl (fun anomalies ps => anomalies ++ evalRule ps tl) []

/-- Findings of `detect_anomalies` on a document text (the context-free
part of the function: lower the text once, then run the rule table). -/
def detect_findings (text : String) : List Anomaly :=
  detect_core (pyLowerStr text)

/-- Python values that can appear inside the `patient_context` dict. -/
inductive PyVal where
  | pynone : PyVal
  | pybool : Bool → PyVal
  | pyint : Int → PyVal
  | pystr : String → PyVal
  | pylist : List PyVal → PyVal
  | pydict : List (String × PyVal) → PyVal

/-- The `patient_context` mapping (`Optional[dict]`): `none` is Python
`None`, otherwise a dict from string keys to arbitrary Python values. -/
abbrev PyDict : Type := List (String × PyVal)

/-- Python truthiness of a value. -/
def pyTruthy : PyVal → Bool
  | .pynone => false
  | .pybool b => b
  | .pyint n => !(n == 0)
  | .pystr s => !(s == "")
  | .pylist xs => !xs.isEmpty
  | .pydict d => !d.isEmpty

/-- Is the value a Python dict (an object supporting `.get`)? -/
def isDict : PyVal → Bool
  | .pydict _ => true
  | _ => false

/-- Python `value.get(key)` (line 257, `social.get("lives_alone")`): a
mapping returns the entry or `None`; any other value raises
`AttributeError`. -/
def pyGet (v : PyVal) (k : String) : Except String PyVal :=
  match v with
  | .pydict d => .ok ((d.lookup k).getD .pynone)
  | _ => .error "AttributeError"

/-- Python `needle in haystack` on strings. -/
def containsSub (hay needle : List Char) : Bool :=
  match hay with
  | [] => needle.isEmpty
  | c :: t => needle.isPrefixOf (c :: t) || containsSub t needle

/-- Lines 254-261 of `detect_anomalies`: after the rule loop the function
inspects `context["social_status"]` (a dead branch whose body is `pass`)
and then returns the accumulated anomalies.  `.error` models an uncaught
Python exception. -/
def respond_with (anomalies : List Anomaly) (tl : List Char) (context : Option PyDict) :
    Except String (List Anomaly) :=
  match context with
  | none => .ok anomalies
  | some d =>
    if d.isEmpty then .ok anomalies
    else
      match d.lookup "social_status" with
      | none => .ok anomalies
      | some social =>
        match pyGet social "lives_alone" with
        | .error e => .error e
        | .ok v =>
          if pyTruthy v && containsSub tl ("sestra".data) then .ok anomalies
          else .ok anomalies

/-- The function `detect_anomalies` (lines 219-261): lowercase the text
once, run the rule table, then run the context block, and return the
findings (or propagate the exception the context block can raise). -/
def detect_anomalies (text : String) (context : Option PyDict) :
    Except String (List Anomaly) :=
  respond_with (detect_findings text) (pyLowerStr text) context

/-- Lines 285-291: reported processing time with the 100ms artificial
floor (`processing_time = 100 + processing_time` when under the floor). -/
def reported_processing_time (elapsed_ms : Nat) : Nat :=
  if elapsed_ms < 100 then 100 + elapsed_ms else elapsed_ms

/-- The fixed `model_used` string of the response. -/
def MODEL_USED : String := "ai-mock-v1 (demo) | Production: OpenBioLLM-70B + DeepSeek-R1"

/-- The deterministic part of `AnalysisResponse` (lines 63-70): the
per-call `request_id` and `timestamp` are nondeterministic plumbing and
are omitted; floats are embedded as exact rationals. -/
structure AnalysisResponse where
  anomalies_found : Nat
  anomalies : List Anomaly
  processing_time_ms : Nat
  model_used : String
  confidence : Rat
deriving DecidableEq

/-- The endpoint body `analyze_document` (lines 270-301) as a function of
the request text, the patient context, and the measured elapsed detection
time in milliseconds. -/
def analyze_document (text : String) (context : Option PyDict) (elapsed_ms : Nat) :
    Except String AnalysisResponse :=
  match detect_anomalies text context with
  | .error e => .error e
  | .ok anomalies =>
    .ok
      { anomalies_found := anomalies.length
      , anomalies := anomalies
      , processing_time_ms := reported_processing_time elapsed_ms
      , model_used := MODEL_USED
      , confidence := if anomalies.isEmpty then (0.85 : Rat) else (0.95 : Rat) }

/-- The hardcoded example document `critical_hypoglycemia` served by
`get_examples` (lines 339-355), byte for byte including the surrounding
newline and trailing indentation of the Python triple-quoted literal. -/
def CRITICAL_HYPO_DOC : String :=
  "\nIZVEŠTAJ SAVETNIKA ZA ZAŠTITU PRAVA PACIJENATA\n\nPredmet: Pritužba na postupanje zdravstvene ustanove\n\nČinjenično stanje:\n- Pacijent dovezen sa glikemijom 0,7 mmol/L\n- Lekar izjavio da \"nega nije obezbeđena u kućnim uslovima\"\n- Pacijent otpušten istog dana\n- Prepisan dugodjelujući insulin (glargin)\n\nOcena savetnika:\nNa osnovu uvida u medicinsku dokumentaciju, utvrđeno je da je postupanje\nzdravstvene ustanove bilo u skladu sa dobrom kliničkom praksom.\n\nPritužba se odbija kao neosnovana.\n                "

/-! Basic properties of the matcher. -/

theorem mpre_emp (s : List Char) : mpre Regex.emp s = false := by
  cases s <;> rfl

theorem mpre_nil (r : Regex) : mpre r [] = nullable r := by
  cases r <;> rfl

theorem mpre_cons (r : Regex) (c : Char) (cs : List Char) :
    mpre r (c :: cs) = (nullable r || mpre (rderiv r c) cs) := by
  cases r <;> first | rfl | (show false = (false || mpre Regex.emp cs); rw [mpre_emp]; rfl)

theorem research_nil (r : Regex) : research r [] = nullable r := rfl

theorem research_cons (r : Regex) (c : Char) (cs : List Char) :
    research r (c :: cs) = (mpre r (c :: cs) || research r cs) := rfl

theorem mpre_of_nullable {r : Regex} (h : nullable r = true) (s : List Char) :
    mpre r s = true := by
  cases s with
  | nil => rw [mpre_nil, h]
  | cons c cs => rw [mpre_cons, h, Bool.true_or]

theorem mpre_append {r : Regex} {s u : List Char} (h : mpre r s = true) :
    mpre r (s ++ u) = true := by
  induction s generalizing r with
  | nil =>
      rw [mpre_nil] at h
      exact mpre_of_nullable h u
  | cons c cs ih =>
      rw [mpre_cons] at h
      rw [List.cons_append, mpre_cons]
      rcases Bool.or_eq_true_iff.mp h with h | h
      · rw [h, Bool.true_or]
      · rw [ih h, Bool.or_true]

theorem research_of_nullable {r : Regex} (h : nullable r = true) (s : List Char) :
    research r s = true := by
  induction s with
  | nil => rw [research_nil, h]
  | cons c cs ih => rw [research_cons, mpre_of_nullable h, Bool.true_or]

theorem research_append_left {r : Regex} {s u : List Char} (h : research r s = true) :
    research r (s ++ u) = true := by
  induction s with
  | nil =>
      rw [research_nil] at h
      exact research_of_nullable h u
  | cons c cs ih =>
      rw [research_cons] at h
      rw [List.cons_append, research_cons]
      rcases Bool.or_eq_true_iff.mp h with h | h
      · have h2 := @mpre_append r (c :: cs) u h
        rw [List.cons_append] at h2
        rw [h2, Bool.true_or]
      · rw [ih h, Bool.or_true]

theorem research_append_right {r : Regex} {s u : List Char} (h : research r u = true) :
    research r (s ++ u) = true := by
  induction s with
  | nil => simpa using h
  | cons c cs ih => rw [List.cons_append, research_cons, ih, Bool.or_true]

theorem research_cat_chr {c0 : Char} {R : Regex} {s : List Char}
    (h : ∀ c ∈ s, c ≠ c0) : research (Regex.cat (Regex.chr c0) R) s = false := by
  induction s with
  | nil => rfl
  | cons c cs ih =>
      have hc : c ≠ c0 := h c (List.mem_cons_self c cs)
      have hd : rderiv (Regex.cat (Regex.chr c0) R) c = Regex.emp := by
        simp [rderiv, nullable, hc, cat']
      rw [research_cons, mpre_cons, hd, mpre_emp,
        ih fun x hx => h x (List.mem_cons_of_mem _ hx)]
      rfl

/-- The base pattern `H36\.0` of rule 1 can never match lowered text:
the pattern starts with an uppercase letter and `str.lower` never
produces `H`. -/
theorem research_h36_lower (text : String) :
    research (litRe "H36.0") (pyLowerStr text) = false := by
  have h : ∀ c ∈ pyLowerStr text, c ≠ 'H' := by
    intro c hc
    obtain ⟨a, _, rfl⟩ := List.mem_map.mp hc
    exact pyLowerChar_ne_H a
  exact research_cat_chr h

/-! Helper lemmas about the rule evaluator. -/

theorem detect_findings_expand (text : String) :
    detect_findings text
      = evalRule RULE_IMPOSSIBLE (pyLowerStr text) ++ evalRule RULE_HYPO (pyLowerStr text)
        ++ evalRule RULE_NEGA (pyLowerStr text) ++ evalRule RULE_SOCIAL (pyLowerStr text)
        ++ evalRule RULE_DISCHARGE (pyLowerStr text) := rfl

theorem count_evalRule_self (ps : PatternSet) (tl : List Char) :
    (evalRule ps tl).count ps.anomaly
      = if base_match ps tl && conflict_match ps tl then 1 else 0 := by
  unfold evalRule
  by_cases hb : base_match ps tl = true
  · by_cases hc : conflict_match ps tl = true
    · simp [hb, hc]
    · simp [hb, hc]
  · simp [hb]

theorem count_evalRule_of_ne (a : Anomaly) (ps : PatternSet) (tl : List Char)
    (h : a ≠ ps.anomaly) : (evalRule ps tl).count a = 0 := by
  unfold evalRule
  split_ifs <;> simp [List.count_eq_zero, h]

/-- Count of one rule's template in the full output, as a function of the
rule's own base and conflict matches. -/
theorem detect_count_helper (text : String) (ps : PatternSet) (hps : ps ∈ DETECTION_PATTERNS) :
    (detect_findings text).count ps.anomaly
      = if base_match ps (pyLowerStr text) && conflict_match ps (pyLowerStr text)
        then 1 else 0 := by
  simp only [DETECTION_PATTERNS, List.mem_cons, List.not_mem_nil, or_false] at hps
  rcases hps with rfl | rfl | rfl | rfl | rfl <;>
    rw [detect_findings_expand] <;> simp only [List.count_append]
  · rw [count_evalRule_self,
      count_evalRule_of_ne RULE_IMPOSSIBLE.anomaly RULE_HYPO _ (by decide),
      count_evalRule_of_ne RULE_IMPOSSIBLE.anomaly RULE_NEGA _ (by decide),
      count_evalRule_of_ne RULE_IMPOSSIBLE.anomaly RULE_SOCIAL _ (by decide),
      count_evalRule_of_ne RULE_IMPOSSIBLE.anomaly RULE_DISCHARGE _ (by decide)]
    simp
  · rw [count_evalRule_self,
      count_evalRule_of_ne RULE_HYPO.anomaly RULE_IMPOSSIBLE _ (by decide),
      count_evalRule_of_ne RULE_HYPO.anomaly RULE_NEGA _ (by decide),
      count_evalRule_of_ne RULE_HYPO.anomaly RULE_SOCIAL _ (by decide),
      count_evalRule_of_ne RULE_HYPO.anomaly RULE_DISCHARGE _ (by decide)]
    simp
  · rw [count_evalRule_self,
      count_evalRule_of_ne RULE_NEGA.anomaly RULE_IMPOSSIBLE _ (by decide),
      count_evalRule_of_ne RULE_NEGA.anomaly RULE_HYPO _ (by decide),
      count_evalRule_of_ne RULE_NEGA.anomaly RULE_SOCIAL _ (by decide),
      count_evalRule_of_ne RULE_NEGA.anomaly RULE_DISCHARGE _ (by decide)]
    simp
  · rw [count_evalRule_self,
      count_evalRule_of_ne RULE_SOCIAL.anomaly RULE_IMPOSSIBLE _ (by decide),
      count_evalRule_of_ne RULE_SOCIAL.anomaly RULE_HYPO _ (by decide),
      count_evalRule_of_ne RULE_SOCIAL.anomaly RULE_NEGA _ (by decide),
      count_evalRule_of_ne RULE_SOCIAL.anomaly RULE_DISCHARGE _ (by decide)]
    simp
  · rw [count_evalRule_self,
      count_evalRule_of_ne RULE_DISCHARGE.anomaly RULE_IMPOSSIBLE _ (by decide),
      count_evalRule_of_ne RULE_DISCHARGE.anomaly RULE_HYPO _ (by decide),
      count_evalRule_of_ne RULE_DISCHARGE.anomaly RULE_NEGA _ (by decide),
      count_evalRule_of_ne RULE_DISCHARGE.anomaly RULE_SOCIAL _ (by decide)]
    simp

/-- A rule of the table whose base and conflict groups both match
contributes its template to the output. -/
theorem mem_detect_of_fires (text : String) (ps : PatternSet)
    (hps : ps ∈ DETECTION_PATTERNS)
    (hb : base_match ps (pyLowerStr text) = true)
    (hc : conflict_match ps (pyLowerStr text) = true) :
    ps.anomaly ∈ detect_findings text := by
  have hrule : evalRule ps (pyLowerStr text) = [ps.anomaly] := by
    unfold evalRule
    rw [if_pos hb, if_pos hc]
  simp only [DETECTION_PATTERNS, List.mem_cons, List.not_mem_nil, or_false] at hps
  rcases hps with rfl | rfl | rfl | rfl | rfl <;>
    rw [detect_findings_expand, hrule] <;> simp [List.mem_append]

theorem base_match_append_left {ps : PatternSet} {l1 l2 : List Char}
    (h : base_match ps l1 = true) : base_match ps (l1 ++ l2) = true := by
  simp only [base_match, List.any_eq_true] at h ⊢
  obtain ⟨p, hp, hr⟩ := h
  exact ⟨p, hp, research_append_left hr⟩

theorem base_match_append_right {ps : PatternSet} {l1 l2 : List Char}
    (h : base_match ps l2 = true) : base_match ps (l1 ++ l2) = true := by
  simp only [base_match, List.any_eq_true] at h ⊢
  obtain ⟨p, hp, hr⟩ := h
  exact ⟨p, hp, research_append_right hr⟩

theorem conflict_match_append_left {ps : PatternSet} {l1 l2 : List Char}
    (h : conflict_match ps l1 = true) : conflict_match ps (l1 ++ l2) = true := by
  unfold conflict_match at h ⊢
  revert h
  cases conflict_group ps with
  | none => intro h; exact absurd h (by simp)
  | some g =>
      intro h
      simp only [List.any_eq_true] at h ⊢
      obtain ⟨p, hp, hr⟩ := h
      exact ⟨p, hp, research_append_left hr⟩

theorem conflict_match_append_right {ps : PatternSet} {l1 l2 : List Char}
    (h : conflict_match ps l2 = true) : conflict_match ps (l1 ++ l2) = true := by
  unfold conflict_match at h ⊢
  revert h
  cases conflict_group ps with
  | none => intro h; exact absurd h (by simp)
  | some g =>
      intro h
      simp only [List.any_eq_true] at h ⊢
      obtain ⟨p, hp, hr⟩ := h
      exact ⟨p, hp, research_append_right hr⟩

theorem pyLowerStr_append (s t : String) :
    pyLowerStr (s ++ t) = pyLowerStr s ++ pyLowerStr t := by
  unfold pyLowerStr
  rw [show (s ++ t).data = s.data ++ t.data from rfl, List.map_append]

theorem map_congr_chars (f g : Char → Char) (l : List Char)
    (h : ∀ c ∈ l, f c = g c) : l.map f = l.map g := by
  induction l with
  | nil => rfl
  | cons c cs ih =>
      rw [List.map_cons, List.map_cons, h c (List.mem_cons_self _ _),
        ih fun x hx => h x (List.mem_cons_of_mem _ hx)]

/-- Lowering commutes with uppercasing exactly on texts whose characters
are case-stable, `lower (upper c) = lower c`; this holds for all ASCII
and the Serbian Latin diacritics, and fails e.g. for `ſ` and `ı`. -/
theorem pyLowerStr_upper_of_stable (s : String)
    (h : ∀ c ∈ s.data, pyLowerChar (pyUpperChar c) = pyLowerChar c) :
    pyLowerStr (pyUpperStr s) = pyLowerStr s := by
  unfold pyLowerStr pyUpperStr
  rw [show (String.mk (s.data.map pyUpperChar)).data = s.data.map pyUpperChar from rfl,
    List.map_map]
  exact map_congr_chars _ _ s.data h

/-- A successful `detect_anomalies` call always returns the rule-loop
findings, whatever the context was. -/
theorem detect_ok_eq (text : String) (c : Option PyDict) (l : List Anomaly)
    (h : detect_anomalies text c = Except.ok l) : l = detect_findings text := by
  unfold detect_anomalies respond_with at h
  repeat' split at h
  all_goals first
    | (cases h; rfl)
    | exact Except.noConfusion h

/-- The reported processing time: at least 100, the measured value plus
100 under the floor, the measured value itself otherwise. -/
theorem reported_processing_time_spec (e : Nat) :
    100 ≤ reported_processing_time e
      ∧ (e < 100 → reported_processing_time e = 100 + e)
      ∧ (100 ≤ e → reported_processing_time e = e) := by
  unfold reported_processing_time
  split_ifs with h1 <;> omega

theorem rat_confidence_ne : (0.85 : Rat) ≠ (0.95 : Rat) := by norm_num

/-- Rule 1 with the dead base pattern `H36\.0` removed. -/
def RULE_IMPOSSIBLE_NOH36 : PatternSet :=
  { RULE_IMPOSSIBLE with
    patterns :=
      [ litRe "retinopat"
      , litRe "slep"
      , seqRe [litRe "vid", dotStar, litRe "ostecen"]
      , seqRe [litRe "dijabeti", dotStar, litRe "retinopat"] ] }

/-- The detection table with the dead pattern removed. -/
def DETECTION_PATTERNS_NOH36 : List PatternSet :=
  [RULE_IMPOSSIBLE_NOH36, RULE_HYPO, RULE_NEGA, RULE_SOCIAL, RULE_DISCHARGE]

/-- The rule loop over the reduced table. -/
def detect_core_noH36 (tl : List Char) : List Anomaly :=
  DETECTION_PATTERNS_NOH36.foldl (fun anomalies ps => anomalies ++ evalRule ps tl) []

/-- Findings over the reduced table. -/
def detect_findings_noH36 (text : String) : List Anomaly :=
  detect_core_noH36 (pyLowerStr text)

/-- `detect_anomalies` over the reduced table. -/
def detect_anomalies_noH36 (text : String) (context : Option PyDict) :
    Except String (List Anomaly) :=
  respond_with (detect_findings_noH36 text) (pyLowerStr text) context

theorem base_match_noH36 (tl : List Char) (hH : research (litRe "H36.0") tl = false) :
    base_match RULE_IMPOSSIBLE_NOH36 tl = base_match RULE_IMPOSSIBLE tl := by
  simp only [base_match, RULE_IMPOSSIBLE, RULE_IMPOSSIBLE_NOH36, List.any_cons, List.any_nil]
  rw [hH]
  simp

theorem detect_findings_noH36_eq (text : String) :
    detect_findings_noH36 text = detect_findings text := by
  have h1 : evalRule RULE_IMPOSSIBLE_NOH36 (pyLowerStr text)
      = evalRule RULE_IMPOSSIBLE (pyLowerStr text) := by
    unfold evalRule
    rw [base_match_noH36 (pyLowerStr text) (research_h36_lower text)]
    rfl
  have hexp : detect_findings_noH36 text
      = evalRule RULE_IMPOSSIBLE_NOH36 (pyLowerStr text) ++ evalRule RULE_HYPO (pyLowerStr text)
        ++ evalRule RULE_NEGA (pyLowerStr text) ++ evalRule RULE_SOCIAL (pyLowerStr text)
        ++ evalRule RULE_DISCHARGE (pyLowerStr text) := rfl
  rw [hexp, h1, detect_findings_expand]

/-- The response produced for an empty document with no context and zero
measured elapsed time. -/
def RESP_EMPTY : AnalysisResponse :=
  { anomalies_found := 0
  , anomalies := []
  , processing_time_ms := 100
  , model_used := MODEL_USED
  , confidence := (0.85 : Rat) }

/-- A context whose `social_status` is a string, not a mapping. -/
def BAD_CONTEXT : PyDict := [("social_status", PyVal.pystr "nepoznato")]

/-! The claims. -/

/-- Claim C1: for every input text and every rule of the detection table,
the engine emits exactly one finding for that rule — a copy of the rule's
fixed anomaly template — iff at least one of the rule's base patterns and
at least one pattern of the rule's single conflict group match the
lowercased text; a text matching only one of the two groups yields no
finding for that rule. -/
theorem claim_C1 (text : String) (ps : PatternSet) (hps : ps ∈ DETECTION_PATTERNS) :
    (detect_findings text).count ps.anomaly
      = if base_match ps (pyLowerStr text) && conflict_match ps (pyLowerStr text)
        then 1 else 0 :=
  detect_count_helper text ps hps

/-- Witness for claim C1 at a concrete text firing the hypoglycemia rule. -/
theorem claim_C1_witness :
    ((detect_findings "hipoglikemija u skladu").count RULE_HYPO.anomaly
        = if base_match RULE_HYPO (pyLowerStr "hipoglikemija u skladu")
            && conflict_match RULE_HYPO (pyLowerStr "hipoglikemija u skladu")
          then 1 else 0)
      ∧ (detect_findings "hipoglikemija u skladu").count RULE_HYPO.anomaly = 1 :=
  ⟨claim_C1 "hipoglikemija u skladu" RULE_HYPO (by decide), by decide⟩

set_option maxHeartbeats 10000000 in
/-- Claim C2 counterexample: on the hardcoded `critical_hypoglycemia`
example document the engine does NOT return two findings (it returns one:
the glycemia reading is written `0,7` with a decimal comma, which none of
the hypoglycemia-value base patterns match, and `hipoglikemij` does not
occur in the document). -/
theorem claim_C2_counterexample : (detect_findings CRITICAL_HYPO_DOC).length ≠ 2 := by
  decide

set_option maxHeartbeats 10000000 in
/-- Claim C2 amended: on the `critical_hypoglycemia` example document the
engine returns exactly one finding, of type `logical_inconsistency` and
severity `critical`, from the `nega nije obezbeđena` rule; the
hypoglycemia-value rule does not fire because its base patterns require a
decimal point while the document writes `0,7 mmol/L`. -/
theorem claim_C2_amended :
    detect_anomalies CRITICAL_HYPO_DOC none = Except.ok [ANOMALY_NEGA]
      ∧ ANOMALY_NEGA = RULE_NEGA.anomaly
      ∧ ANOMALY_NEGA.type = AnomalyType.logical_inconsistency
      ∧ ANOMALY_NEGA.severity = SeverityLevel.critical
      ∧ base_match RULE_HYPO (pyLowerStr CRITICAL_HYPO_DOC) = false :=
  ⟨rfl, rfl, rfl, rfl, by decide⟩

/-- Claim C3: for every analyze call the confidence is 0.95 iff the
returned anomalies list is non-empty, and 0.85 otherwise; no other
confidence value is ever produced. -/
theorem claim_C3 (text : String) (context : Option PyDict) (elapsed : Nat)
    (r : AnalysisResponse) (h : analyze_document text context elapsed = Except.ok r) :
    (r.confidence = (0.95 : Rat) ↔ 0 < r.anomalies_found)
      ∧ (r.confidence = (0.95 : Rat) ∨ r.confidence = (0.85 : Rat)) := by
  unfold analyze_document at h
  split at h
  · exact Except.noConfusion h
  · rename_i anomalies heq
    cases h
    rcases anomalies with _ | ⟨a, as⟩
    · refine ⟨⟨fun hc => absurd hc rat_confidence_ne, fun hn => absurd hn (lt_irrefl 0)⟩,
        Or.inr rfl⟩
    · exact ⟨⟨fun _ => Nat.succ_pos _, fun _ => rfl⟩, Or.inl rfl⟩

/-- Witness for claim C3 at the empty document. -/
theorem claim_C3_witness :
    (RESP_EMPTY.confidence = (0.95 : Rat) ↔ 0 < RESP_EMPTY.anomalies_found)
      ∧ (RESP_EMPTY.confidence = (0.95 : Rat) ∨ RESP_EMPTY.confidence = (0.85 : Rat)) :=
  claim_C3 "" none 0 RESP_EMPTY rfl

/-- Claim C4: the reported processing time is always at least 100ms: below
the floor the measured value is raised (by adding the elapsed time to the
100ms floor), otherwise the measured value is reported unchanged. -/
theorem claim_C4 (text : String) (context : Option PyDict) (elapsed : Nat)
    (r : AnalysisResponse) (h : analyze_document text context elapsed = Except.ok r) :
    100 ≤ r.processing_time_ms
      ∧ (elapsed < 100 → r.processing_time_ms = 100 + elapsed)
      ∧ (100 ≤ elapsed → r.processing_time_ms = elapsed) := by
  unfold analyze_document at h
  split at h
  · exact Except.noConfusion h
  · cases h
    exact reported_processing_time_spec elapsed

/-- Witness for claim C4 at the empty document and zero elapsed time. -/
theorem claim_C4_witness :
    100 ≤ RESP_EMPTY.processing_time_ms
      ∧ (0 < 100 → RESP_EMPTY.processing_time_ms = 100 + 0)
      ∧ (100 ≤ 0 → RESP_EMPTY.processing_time_ms = 0) :=
  claim_C4 "" none 0 RESP_EMPTY rfl

/-- Claim C5 counterexample: a context whose `social_status` is not a
mapping makes `detect_anomalies` raise instead of returning the same
finding list, so the context argument is not output-irrelevant over all
context values. -/
theorem claim_C5_counterexample :
    detect_anomalies "" (some BAD_CONTEXT) ≠ detect_anomalies "" none := by
  have h1 : detect_anomalies "" (some BAD_CONTEXT) = Except.error "AttributeError" := rfl
  have h2 : detect_anomalies "" none = Except.ok ([] : List Anomaly) := rfl
  rw [h1, h2]
  intro h
  exact Except.noConfusion h

/-- Claim C5 amended: whenever two `detect_anomalies` calls on the same
text both return normally (in particular for `None`, the empty mapping,
and any mapping whose `social_status`, if present, is itself a mapping),
they return the identical list of findings: the context never alters the
findings of a successful call. -/
theorem claim_C5 (text : String) (c1 c2 : Option PyDict) (l1 l2 : List Anomaly)
    (h1 : detect_anomalies text c1 = Except.ok l1)
    (h2 : detect_anomalies text c2 = Except.ok l2) : l1 = l2 := by
  rw [detect_ok_eq text c1 l1 h1, detect_ok_eq text c2 l2 h2]

/-- Witness for claim C5: `None` versus a well-formed social context. -/
theorem claim_C5_witness : ([ANOMALY_HYPO] : List Anomaly) = [ANOMALY_HYPO] :=
  claim_C5 "hipoglikemija u skladu" none
    (some [("social_status", PyVal.pydict [("lives_alone", PyVal.pybool true)])])
    [ANOMALY_HYPO] [ANOMALY_HYPO] rfl rfl

/-- Claim C6 counterexample: uppercasing does NOT always preserve the
findings.  Python maps the long s `ſ` to `S` under `str.upper` while
`str.lower` leaves `ſ` unchanged, so `ſlep upis` yields no findings but
its all-uppercase version `SLEP UPIS` fires the impossible-instruction
rule (base `slep`, instruction `upis`). -/
theorem claim_C6_counterexample :
    detect_anomalies (pyUpperStr "ſlep upis") none ≠ detect_anomalies "ſlep upis" none := by
  have h1 : detect_anomalies (pyUpperStr "ſlep upis") none
      = Except.ok [ANOMALY_IMPOSSIBLE] := rfl
  have h2 : detect_anomalies "ſlep upis" none = Except.ok ([] : List Anomaly) := rfl
  rw [h1, h2]
  intro h
  injection h with h
  exact List.noConfusion h

/-- Claim C6 amended: for every text all of whose characters fold stably
under the case round trip — `lower (upper c) = lower c`, true of all
ASCII and of the Serbian Latin diacritics the service's documents use,
but false for exotic letters such as `ſ` and `ı` — the all-uppercase
version of the text yields exactly the same result as the original, for
any context, because the engine lowercases the input once before any
pattern is evaluated. -/
theorem claim_C6 (text : String) (context : Option PyDict)
    (h : ∀ c ∈ text.data, pyLowerChar (pyUpperChar c) = pyLowerChar c) :
    detect_anomalies (pyUpperStr text) context = detect_anomalies text context := by
  unfold detect_anomalies detect_findings
  rw [pyLowerStr_upper_of_stable text h]

/-- Witness for claim C6 at a concrete case-stable text that fires the
hypoglycemia rule. -/
theorem claim_C6_witness :
    detect_anomalies (pyUpperStr "hipoglikemija u skladu") none
      = detect_anomalies "hipoglikemija u skladu" none :=
  claim_C6 "hipoglikemija u skladu" none (by decide)

/-- Claim C7: when one text fires one rule of the table and another text
fires another rule, the concatenated document contains both rules'
findings: matches survive concatenation and rules do not interfere. -/
theorem claim_C7 (t1 t2 : String) (ps1 ps2 : PatternSet)
    (h1 : ps1 ∈ DETECTION_PATTERNS) (h2 : ps2 ∈ DETECTION_PATTERNS)
    (hb1 : base_match ps1 (pyLowerStr t1) = true)
    (hc1 : conflict_match ps1 (pyLowerStr t1) = true)
    (hb2 : base_match ps2 (pyLowerStr t2) = true)
    (hc2 : conflict_match ps2 (pyLowerStr t2) = true) :
    ps1.anomaly ∈ detect_findings (t1 ++ t2)
      ∧ ps2.anomaly ∈ detect_findings (t1 ++ t2) := by
  constructor
  · refine mem_detect_of_fires _ _ h1 ?_ ?_
    · rw [pyLowerStr_append]; exact base_match_append_left hb1
    · rw [pyLowerStr_append]; exact conflict_match_append_left hc1
  · refine mem_detect_of_fires _ _ h2 ?_ ?_
    · rw [pyLowerStr_append]; exact base_match_append_right hb2
    · rw [pyLowerStr_append]; exact conflict_match_append_right hc2

/-- Witness for claim C7: a hypoglycemia text concatenated with a
care-not-provided text triggers both rules. -/
theorem claim_C7_witness :
    RULE_HYPO.anomaly ∈ detect_findings ("hipoglikemija u skladu" ++ "bez nege pravilno")
      ∧ RULE_NEGA.anomaly ∈ detect_findings ("hipoglikemija u skladu" ++ "bez nege pravilno") :=
  claim_C7 "hipoglikemija u skladu" "bez nege pravilno" RULE_HYPO RULE_NEGA
    (by decide) (by decide) (by decide) (by decide) (by decide) (by decide)

/-- Claim C8: the engine has no failure mode on the text input: every
string yields a normal return with a (possibly empty) finding list, and
the empty string yields exactly zero findings. -/
theorem claim_C8 :
    (∀ text : String, ∃ findings, detect_anomalies text none = Except.ok findings)
      ∧ detect_anomalies "" none = Except.ok ([] : List Anomaly) :=
  ⟨fun text => ⟨detect_findings text, rfl⟩, rfl⟩

/-- Claim C9: the base pattern `H36\.0` can never match lowered text, and
removing it from the rule table leaves `detect_anomalies` extensionally
unchanged for every text and context. -/
theorem claim_C9 :
    (∀ text : String, research (litRe "H36.0") (pyLowerStr text) = false)
      ∧ ∀ (text : String) (context : Option PyDict),
          detect_anomalies_noH36 text context = detect_anomalies text context := by
  refine ⟨research_h36_lower, fun text context => ?_⟩
  unfold detect_anomalies_noH36 detect_anomalies
  rw [detect_findings_noH36_eq]

/-- Claim C10: a context whose `social_status` value does not support
mapping-style `.get` lookup makes the call raise `AttributeError`; the
call returns normally when the context is `None`, lacks the key, or maps
it to a mapping. -/
theorem claim_C10 (text : String) (d : PyDict) :
    (∀ v, d.lookup "social_status" = some v → isDict v = false →
        detect_anomalies text (some d) = Except.error "AttributeError")
      ∧ detect_anomalies text none = Except.ok (detect_findings text)
      ∧ (d.lookup "social_status" = none →
          detect_anomalies text (some d) = Except.ok (detect_findings text))
      ∧ ∀ entries, d.lookup "social_status" = some (PyVal.pydict entries) →
          detect_anomalies text (some d) = Except.ok (detect_findings text) := by
  have hne : ∀ v : PyVal, d.lookup "social_status" = some v → d.isEmpty = false := by
    intro v hv
    cases d with
    | nil => simp [List.lookup] at hv
    | cons p ps => rfl
  refine ⟨?_, rfl, ?_, ?_⟩
  · intro v hv hnd
    simp only [detect_anomalies, respond_with, hne v hv, hv]
    cases v <;> simp_all [pyGet, isDict]
  · intro hnone
    simp [detect_anomalies, respond_with, hnone]
  · intro entries hv
    simp [detect_anomalies, respond_with, hne (PyVal.pydict entries) hv, hv, pyGet]

/-- Witness for claim C10: a string-valued `social_status` raises, the
`None` context succeeds. -/
theorem claim_C10_witness :
    detect_anomalies "tekst" (some [("social_status", PyVal.pystr "nepoznat")])
        = Except.error "AttributeError"
      ∧ detect_anomalies "tekst" none = Except.ok (detect_findings "tekst") :=
  ⟨(claim_C10 "tekst" [("social_status", PyVal.pystr "nepoznat")]).1
      (PyVal.pystr "nepoznat") rfl rfl,
   (claim_C10 "tekst" [("social_status", PyVal.pystr "nepoznat")]).2.1⟩
